import Mathlib

/-
Verification of the MixLens core (feature extractor + suggestion engine)
against its natural-language specification.

Shallow embedding notes:
* Python floats are modelled as exact rationals (ℚ).  Every concrete value
  appearing in a theorem below is a dyadic rational (exactly representable as
  an IEEE-754 double), so the rational model and the float behaviour of the
  source agree on all inputs used here.  In particular `7 * 0.7` is
  `4.8999999999999995` as a double and `49/10` here; since it is only ever
  compared against an integer count, the two comparisons coincide.
* A Python dict restricted to the DescriptorSet schema is modelled as a
  structure of `Option` fields (a `none` field is an absent key); the flag
  `extraKeys` records whether the dict holds any key outside the schema, so
  that Python truthiness (`not extracted`) is modelled faithfully.
* `s.startswith(p)` on Python strings (sequences of code points) is prefix
  of code-point lists, modelled by `pyStartsWith` on `String.data`.
* Python's fixed-point formatting `f"{x:.nf}"` (round half to even, then
  print with exactly n fractional digits) is modelled by `fmtFixed`, and
  `round(x, n)` by `pyRound`.
* The numeric signal-processing primitives called by the extractor
  (librosa / numpy, e.g. `librosa.load`, `beat_track`, `log10`) are external
  libraries, not code of this repository; the extractor is therefore
  parametrised by the outcome of those calls (`RawPipeline` on success, an
  exception on failure), and everything the repository's own code does with
  that outcome is embedded.
-/

/-- Python `s.startswith(p)`: the code points of `p` form a prefix of the
code points of `s`. -/
def pyStartsWith (s p : String) : Bool :=
  decide (p.data <+: s.data)

/-- Round a rational to the nearest integer, ties to the even integer
(the rounding used by Python's `round` and fixed-point formatting). -/
def rne (q : ℚ) : ℤ :=
  let f : ℤ := ⌊q⌋
  let r : ℚ := q - f
  if r < 1 / 2 then f
  else if 1 / 2 < r then f + 1
  else if 2 ∣ f then f else f + 1

/-- Python `round(q, n)` on the rational model. -/
def pyRound (n : ℕ) (q : ℚ) : ℚ :=
  (rne (q * 10 ^ n) : ℚ) / 10 ^ n

/-- Decimal digits of a natural number, most significant first; the first
argument is fuel (any bound above the digit count). -/
def natDigitsAux : ℕ → ℕ → List Char → List Char
  | 0, _, acc => acc
  | fuel + 1, n, acc =>
    let d : Char := Char.ofNat (48 + n % 10)
    if n < 10 then d :: acc
    else natDigitsAux fuel (n / 10) (d :: acc)

/-- Decimal rendering of a natural number. -/
def natToString (n : ℕ) : String :=
  String.mk (natDigitsAux (n + 1) n [])

/-- Left-pad a digit string with zeros to length `n`. -/
def padZeros (n : ℕ) (s : String) : String :=
  String.mk (List.replicate (n - s.length) '0') ++ s

/-- Python fixed-point formatting `f"{q:.nf}"` on the rational model:
round half to even at `n` decimals, print with exactly `n` fractional
digits (none, and no decimal point, when `n = 0`). -/
def fmtFixed (n : ℕ) (q : ℚ) : String :=
  let sign : String := if q < 0 then "-" else ""
  let m : ℕ := (rne (q * 10 ^ n)).natAbs
  if n = 0 then sign ++ natToString m
  else sign ++ natToString (m / 10 ^ n) ++ "." ++ padZeros n (natToString (m % 10 ^ n))

/-- The suggestion engine's input dict `features['extracted_features']`
(spec §3 "DescriptorSet").  A `none` field models an absent key; `extraKeys`
models the presence of keys outside the fixed schema, so that emptiness of
the dict is faithful. -/
structure DescriptorSet where
  tempo_bpm : Option ℚ := none
  estimated_key : Option String := none
  rms_db : Option ℚ := none
  lufs_approx : Option ℚ := none
  spectral_centroid_hz : Option ℚ := none
  spectral_rolloff_percent : Option ℚ := none
  zero_crossing_rate : Option ℚ := none
  spectral_bandwidth_hz : Option ℚ := none
  dynamic_range_db : Option ℚ := none
  spectral_contrast : Option ℚ := none
  mfcc_mean : Option ℚ := none
  harmonic_ratio : Option ℚ := none
  percussive_ratio : Option ℚ := none
  extraKeys : Bool := false
deriving DecidableEq

/-- Python truthiness of the dict: `not extracted` holds exactly when the
dict has no key at all. -/
def DescriptorSet.isEmpty (d : DescriptorSet) : Bool :=
  d.tempo_bpm.isNone && d.estimated_key.isNone && d.rms_db.isNone &&
  d.lufs_approx.isNone && d.spectral_centroid_hz.isNone &&
  d.spectral_rolloff_percent.isNone && d.zero_crossing_rate.isNone &&
  d.spectral_bandwidth_hz.isNone && d.dynamic_range_db.isNone &&
  d.spectral_contrast.isNone && d.mfcc_mean.isNone &&
  d.harmonic_ratio.isNone && d.percussive_ratio.isNone && !d.extraKeys

/-- The threshold table of `SuggestionEngine.__init__`
(src/analyzer/suggestion_engine.py lines 14-25). -/
structure Thresholds where
  rms_too_quiet : ℚ
  rms_too_loud : ℚ
  dynamic_range_low : ℚ
  dynamic_range_high : ℚ
  spectral_centroid_low : ℚ
  spectral_centroid_high : ℚ
  spectral_rolloff_low : ℚ
  spectral_rolloff_high : ℚ
  harmonic_ratio_low : ℚ
  percussive_ratio_high : ℚ

namespace SuggestionEngine

/-- `self.thresholds` (suggestion_engine.py lines 14-25). -/
def thresholds : Thresholds where
  rms_too_quiet := -20.0
  rms_too_loud := -6.0
  dynamic_range_low := 6.0
  dynamic_range_high := 20.0
  spectral_centroid_low := 2000.0
  spectral_centroid_high := 4000.0
  spectral_rolloff_low := 60.0
  spectral_rolloff_high := 90.0
  harmonic_ratio_low := 0.5
  percussive_ratio_high := 0.6

end SuggestionEngine

/-- Loudness/RMS block (suggestion_engine.py lines 43-61). -/
def loudnessSuggestion (rms_db lufs_approx : ℚ) : String :=
  if rms_db < SuggestionEngine.thresholds.rms_too_quiet then
    "🔊 **Loudness**: Track is quiet (RMS: " ++ (fmtFixed 1 rms_db ++
      " dB). Consider normalizing or increasing gain to improve perceived loudness.")
  else if SuggestionEngine.thresholds.rms_too_loud < rms_db then
    "🔊 **Loudness**: Track may be too loud (RMS: " ++ (fmtFixed 1 rms_db ++
      " dB). Watch for clipping and consider reducing gain slightly.")
  else
    "✅ **Loudness**: Good level (RMS: " ++ (fmtFixed 1 rms_db ++
      (" dB, LUFS approx: " ++ (fmtFixed 1 lufs_approx ++
      "). Track has appropriate loudness for modern production.")))

/-- Dynamic-range block (suggestion_engine.py lines 63-80). -/
def dynamicRangeSuggestion (dynamic_range : ℚ) : String :=
  if dynamic_range < SuggestionEngine.thresholds.dynamic_range_low then
    "🎚️ **Dynamic Range**: Very compressed (Range: " ++ (fmtFixed 1 dynamic_range ++
      " dB). Consider easing compression to preserve more natural dynamics and musicality.")
  else if SuggestionEngine.thresholds.dynamic_range_high < dynamic_range then
    "🎚️ **Dynamic Range**: Wide dynamics (Range: " ++ (fmtFixed 1 dynamic_range ++
      " dB). Good for dynamic music, but ensure consistency for streaming platforms.")
  else
    "✅ **Dynamic Range**: Balanced (Range: " ++ (fmtFixed 1 dynamic_range ++
      " dB). Good balance between dynamics and consistency.")

/-- Spectral-centroid block (suggestion_engine.py lines 82-99). -/
def frequencyBalanceSuggestion (spectral_centroid : ℚ) : String :=
  if spectral_centroid < SuggestionEngine.thresholds.spectral_centroid_low then
    "🎵 **Frequency Balance**: Low-end heavy (Centroid: " ++ (fmtFixed 0 spectral_centroid ++
      " Hz). Mix may lack clarity in the mid/high frequencies. Consider boosting presence or reducing low-end.")
  else if SuggestionEngine.thresholds.spectral_centroid_high < spectral_centroid then
    "🎵 **Frequency Balance**: Bright mix (Centroid: " ++ (fmtFixed 0 spectral_centroid ++
      " Hz). High frequencies are prominent. Watch for harshness or listener fatigue.")
  else
    "✅ **Frequency Balance**: Well-balanced (Centroid: " ++ (fmtFixed 0 spectral_centroid ++
      " Hz). Good distribution across frequency spectrum.")

/-- Spectral-rolloff block (suggestion_engine.py lines 101-118). -/
def highFrequencySuggestion (spectral_rolloff : ℚ) : String :=
  if spectral_rolloff < SuggestionEngine.thresholds.spectral_rolloff_low then
    "📊 **High-Frequency Content**: Limited high-end (Rolloff: " ++ (fmtFixed 1 spectral_rolloff ++
      "%). Mix may sound dull. Consider adding air or reducing low-pass filtering.")
  else if SuggestionEngine.thresholds.spectral_rolloff_high < spectral_rolloff then
    "📊 **High-Frequency Content**: Extended high-end (Rolloff: " ++ (fmtFixed 1 spectral_rolloff ++
      "%). Very bright mix. Ensure high frequencies are musical, not harsh.")
  else
    "✅ **High-Frequency Content**: Appropriate (Rolloff: " ++ (fmtFixed 1 spectral_rolloff ++
      "%). Good high-frequency extension.")

/-- Harmonic-content block (suggestion_engine.py lines 120-133); the value
`percussive_ratio` is also read there (line 122) but never used. -/
def harmonicContentSuggestion (harmonic_ratio : ℚ) : String :=
  if harmonic_ratio < SuggestionEngine.thresholds.harmonic_ratio_low then
    "🎸 **Harmonic Content**: Low harmonic content (" ++ (fmtFixed 1 (harmonic_ratio * 100) ++
      "%). Track is more percussive/noisy. If intended, great! If not, check for distortion or noise issues.")
  else
    "✅ **Harmonic Content**: Good harmonic presence (" ++ (fmtFixed 1 (harmonic_ratio * 100) ++
      "%). Musical elements are well-represented.")

/-- Tempo block (suggestion_engine.py lines 135-152); the bounds 60 and 180
are literals in the source, not entries of the threshold table. -/
def tempoSuggestion (tempo : ℚ) : String :=
  if tempo < 60 then
    "⏱️ **Tempo**: Slow tempo (" ++ (fmtFixed 1 tempo ++
      " BPM). Great for ambient or ballads. Ensure timing feels intentional.")
  else if 180 < tempo then
    "⏱️ **Tempo**: Fast tempo (" ++ (fmtFixed 1 tempo ++
      " BPM). High energy track! Ensure clarity isn't lost at this pace.")
  else
    "✅ **Tempo**: " ++ (fmtFixed 1 tempo ++
      " BPM detected. Tempo is well-suited for most genres.")

/-- Key-detection entry (suggestion_engine.py lines 154-159), emitted
unconditionally. -/
def keyDetectionSuggestion (estimated_key : String) : String :=
  "🎹 **Key Detection**: Estimated key is " ++ (estimated_key ++
    ". Use this as a reference for harmonic mixing or adding complementary elements.")

/-- The positive overall banner (suggestion_engine.py lines 166-169). -/
def overallPositive : String :=
  "🎉 **Overall**: Your mix shows strong technical qualities! Most parameters are within optimal ranges."

/-- The improvement-needed overall banner (suggestion_engine.py lines 170-174). -/
def overallImprovement : String :=
  "💡 **Overall**: Your mix has room for improvement in several areas. Focus on the suggestions below to enhance production quality."

/-- The seven category entries appended in order by `generate`
(suggestion_engine.py lines 43-159); every field is read with
`extracted.get(key, 0)` (resp. default `'Unknown'` for the key). -/
def suggestionsOf (d : DescriptorSet) : List String :=
  [loudnessSuggestion (d.rms_db.getD 0) (d.lufs_approx.getD 0),
   dynamicRangeSuggestion (d.dynamic_range_db.getD 0),
   frequencyBalanceSuggestion (d.spectral_centroid_hz.getD 0),
   highFrequencySuggestion (d.spectral_rolloff_percent.getD 0),
   harmonicContentSuggestion (d.harmonic_ratio.getD 0),
   tempoSuggestion (d.tempo_bpm.getD 0),
   keyDetectionSuggestion (d.estimated_key.getD "Unknown")]

/-- `SuggestionEngine.generate` (suggestion_engine.py lines 27-176).
The argument is `features['extracted_features']`; `none` models a missing
key (`features.get('extracted_features', {})` then yields `{}`).
`suggestions.insert(0, banner)` on line 166/171 is prepending, modelled by
`::`. -/
def SuggestionEngine.generate (features : Option DescriptorSet) : List String :=
  let extracted : DescriptorSet := features.getD {}
  if extracted.isEmpty then
    ["Unable to extract features. Please check audio file."]
  else
    let suggestions : List String := suggestionsOf extracted
    let suggestion_count : ℕ := (suggestions.filter (fun s => pyStartsWith s "✅")).length
    let total_checks : ℕ := 7
    if (total_checks : ℚ) * 0.7 ≤ (suggestion_count : ℚ) then
      overallPositive :: suggestions
    else
      overallImprovement :: suggestions

/-- Number of the six judged category checks whose value lies in the
favorable (neither-extreme) band; the key-detection entry is not judged. -/
def favorableCount (d : DescriptorSet) : ℕ :=
  (if ¬(d.rms_db.getD 0 < SuggestionEngine.thresholds.rms_too_quiet) ∧
      ¬(SuggestionEngine.thresholds.rms_too_loud < d.rms_db.getD 0) then 1 else 0) +
  (if ¬(d.dynamic_range_db.getD 0 < SuggestionEngine.thresholds.dynamic_range_low) ∧
      ¬(SuggestionEngine.thresholds.dynamic_range_high < d.dynamic_range_db.getD 0) then 1 else 0) +
  (if ¬(d.spectral_centroid_hz.getD 0 < SuggestionEngine.thresholds.spectral_centroid_low) ∧
      ¬(SuggestionEngine.thresholds.spectral_centroid_high < d.spectral_centroid_hz.getD 0) then 1 else 0) +
  (if ¬(d.spectral_rolloff_percent.getD 0 < SuggestionEngine.thresholds.spectral_rolloff_low) ∧
      ¬(SuggestionEngine.thresholds.spectral_rolloff_high < d.spectral_rolloff_percent.getD 0) then 1 else 0) +
  (if ¬(d.harmonic_ratio.getD 0 < SuggestionEngine.thresholds.harmonic_ratio_low) then 1 else 0) +
  (if ¬(d.tempo_bpm.getD 0 < 60) ∧ ¬(180 < d.tempo_bpm.getD 0) then 1 else 0)

/-- The overall banner selected for a non-empty DescriptorSet. -/
def bannerOf (d : DescriptorSet) : String :=
  if 49 ≤ 10 * favorableCount d then overallPositive else overallImprovement

/-- A Python exception value.  The repository defines no exception class of
its own; `libError` stands for whatever exception the external decode /
analysis libraries raise, and `decodeError` stands for the typed
`DecodeError` wrapper the spec describes (no such wrapper exists anywhere
in the source tree). -/
inductive PyExn where
  | libError (msg : String)
  | decodeError (cause : PyExn)
deriving DecidableEq

/-- The scalar outcomes of the external librosa/numpy calls inside
`FeatureExtractor.extract` (feature_extractor.py lines 42-101): decoded
signal length and sample rate, and the library-computed means.  The
arithmetic the repository itself performs on these values is embedded in
`FeatureExtractor.extract` below. -/
structure RawPipeline where
  y_length : ℕ
  sr : ℕ
  tempo : ℚ
  key_idx : Fin 12
  rms_db : ℚ
  spectral_centroid_mean : ℚ
  spectral_rolloff_mean : ℚ
  zcr_mean : ℚ
  spectral_bandwidth_mean : ℚ
  peak : ℚ
  peak_db : ℚ
  spectral_contrast_mean : ℚ
  mfcc_mean : ℚ
  harmonic_ratio : ℚ
  percussive_ratio : ℚ
deriving DecidableEq

/-- The `extracted_features` dict built by `extract`
(feature_extractor.py lines 103-117); all keys are always present. -/
structure ExtractedFeatures where
  tempo_bpm : ℚ
  estimated_key : String
  rms_db : ℚ
  lufs_approx : ℚ
  spectral_centroid_hz : ℚ
  spectral_rolloff_percent : ℚ
  zero_crossing_rate : ℚ
  spectral_bandwidth_hz : ℚ
  dynamic_range_db : ℚ
  spectral_contrast : ℚ
  mfcc_mean : ℚ
  harmonic_ratio : ℚ
  percussive_ratio : ℚ
deriving DecidableEq

/-- The `audio_data` dict (feature_extractor.py lines 123-127). -/
structure AudioData where
  length_samples : ℕ
  peak_amplitude : ℚ
  peak_db : ℚ
deriving DecidableEq

/-- The dict returned by `extract` (feature_extractor.py lines 119-128). -/
structure AnalysisResult where
  duration_seconds : ℚ
  sample_rate : ℕ
  extracted_features : ExtractedFeatures
  audio_data : AudioData
deriving DecidableEq

/-- The pitch-class table (feature_extractor.py line 55): the twelve names
C, C#, D, D#, E, F, F#, G, G#, A, A#, B in order. -/
def keys : List String :=
  ["C", "C#", "D", "D#"] ++ ["E", "F", "F#", "G"] ++ ["G#", "A", "A#", "B"]

/-- `FeatureExtractor.extract` (feature_extractor.py lines 31-128).  The
external library calls are summarised by the argument: `.error e` when any
of them raises (`extract` contains no try/except, so the exception
propagates unchanged), `.ok p` with their scalar outcomes otherwise.  The
in-source arithmetic — duration, LUFS offset, rolloff percentage, dynamic
range, key lookup and all the per-field rounding — is computed here. -/
def FeatureExtractor.extract (pipeline : Except PyExn RawPipeline) : Except PyExn AnalysisResult :=
  match pipeline with
  | .error e => .error e
  | .ok p =>
    let duration : ℚ := (p.y_length : ℚ) / (p.sr : ℚ)
    let lufs_approx : ℚ := p.rms_db - 23.0
    let spectral_rolloff_percent : ℚ := p.spectral_rolloff_mean / ((p.sr : ℚ) / 2) * 100
    let dynamic_range : ℚ := p.peak_db - p.rms_db
    let estimated_key : String := keys.get ⟨p.key_idx.1, p.key_idx.2⟩
    .ok
      { duration_seconds := pyRound 2 duration
        sample_rate := p.sr
        extracted_features :=
          { tempo_bpm := pyRound 2 p.tempo
            estimated_key := estimated_key
            rms_db := pyRound 2 p.rms_db
            lufs_approx := pyRound 2 lufs_approx
            spectral_centroid_hz := pyRound 2 p.spectral_centroid_mean
            spectral_rolloff_percent := pyRound 2 spectral_rolloff_percent
            zero_crossing_rate := pyRound 4 p.zcr_mean
            spectral_bandwidth_hz := pyRound 2 p.spectral_bandwidth_mean
            dynamic_range_db := pyRound 2 dynamic_range
            spectral_contrast := pyRound 2 p.spectral_contrast_mean
            mfcc_mean := pyRound 2 p.mfcc_mean
            harmonic_ratio := pyRound 3 p.harmonic_ratio
            percussive_ratio := pyRound 3 p.percussive_ratio }
        audio_data :=
          { length_samples := p.y_length
            peak_amplitude := pyRound 4 p.peak
            peak_db := pyRound 2 p.peak_db } }

/-- Whether an extraction outcome is a failure wrapped in the spec's typed
`DecodeError`. -/
def isDecodeErrorResult : Except PyExn AnalysisResult → Bool
  | .error (.decodeError _) => true
  | _ => false

/-- `q` carries at most `n` decimal digits: scaling by `10 ^ n` yields an
integer.  This is what "rounded to `n` decimals" means observably. -/
def hasDecimals (n : ℕ) (q : ℚ) : Prop := (q * 10 ^ n).den = 1

/-- A judged Loudness entry (favorable or warning tier). -/
def isLoudnessJudged (s : String) : Bool :=
  pyStartsWith s "🔊 **Loudness**" || pyStartsWith s "✅ **Loudness**"

/-- A judged Tempo entry (favorable or warning tier). -/
def isTempoJudged (s : String) : Bool :=
  pyStartsWith s "⏱️ **Tempo**" || pyStartsWith s "✅ **Tempo**"

/-- Refinement rendering of the favorable Loudness entry following the
spec's words: the message embeds "the numeric value(s) that triggered it,
rounded as received from the DescriptorSet (no re-rounding)"; `rms_db` and
`lufs_approx` are received at 2-decimal precision (spec §4.1 step 10), so
here they are embedded at exactly that precision. -/
def specLoudnessEntryAsReceived (d : DescriptorSet) : String :=
  "✅ **Loudness**: Good level (RMS: " ++ (fmtFixed 2 (d.rms_db.getD 0) ++
    (" dB, LUFS approx: " ++ (fmtFixed 2 (d.lufs_approx.getD 0) ++
    "). Track has appropriate loudness for modern production.")))

/-- A DescriptorSet whose loudness sits exactly on the -20.0 dB threshold. -/
def dsAtThreshold : DescriptorSet := { rms_db := some (-20) }

/-- A DescriptorSet whose loudness is just below the -20.0 dB threshold. -/
def dsBelowThreshold : DescriptorSet := { rms_db := some (-20.01) }

/-- A DescriptorSet with `rms_db` received at 2-decimal precision whose
value changes under 1-decimal re-rounding. -/
def dsReround : DescriptorSet :=
  { rms_db := some (-10.25), lufs_approx := some (-33.25) }

/-- A non-empty DescriptorSet lacking the `rms_db` key. -/
def dsNoRms : DescriptorSet := { tempo_bpm := some 120 }

/-- A non-empty DescriptorSet lacking the `tempo_bpm` key. -/
def dsNoTempo : DescriptorSet := { rms_db := some (-12) }

/-- Exactly five of the six judged checks favorable (tempo 50 is slow). -/
def dsFiveFavorable : DescriptorSet :=
  { tempo_bpm := some 50, estimated_key := some "C", rms_db := some (-12),
    lufs_approx := some (-35), spectral_centroid_hz := some 3000,
    spectral_rolloff_percent := some 75, zero_crossing_rate := some 0.1,
    spectral_bandwidth_hz := some 1500, dynamic_range_db := some 10,
    spectral_contrast := some 20, mfcc_mean := some (-100),
    harmonic_ratio := some 0.7, percussive_ratio := some 0.3 }

/-- Exactly four of the six judged checks favorable (tempo slow, harmonic
ratio low). -/
def dsFourFavorable : DescriptorSet :=
  { tempo_bpm := some 50, estimated_key := some "C", rms_db := some (-12),
    lufs_approx := some (-35), spectral_centroid_hz := some 3000,
    spectral_rolloff_percent := some 75, zero_crossing_rate := some 0.1,
    spectral_bandwidth_hz := some 1500, dynamic_range_db := some 10,
    spectral_contrast := some 20, mfcc_mean := some (-100),
    harmonic_ratio := some 0.3, percussive_ratio := some 0.7 }

/-- An all-zero pipeline outcome (used to instantiate extractor theorems). -/
def rawZero : RawPipeline :=
  { y_length := 0, sr := 22050, tempo := 0, key_idx := 0, rms_db := 0,
    spectral_centroid_mean := 0, spectral_rolloff_mean := 0, zcr_mean := 0,
    spectral_bandwidth_mean := 0, peak := 0, peak_db := 0,
    spectral_contrast_mean := 0, mfcc_mean := 0, harmonic_ratio := 0,
    percussive_ratio := 0 }

/-- The AnalysisResult `extract` produces from `rawZero`. -/
def resZero : AnalysisResult :=
  { duration_seconds := 0
    sample_rate := 22050
    extracted_features :=
      { tempo_bpm := 0, estimated_key := "C", rms_db := 0, lufs_approx := -23,
        spectral_centroid_hz := 0, spectral_rolloff_percent := 0,
        zero_crossing_rate := 0, spectral_bandwidth_hz := 0,
        dynamic_range_db := 0, spectral_contrast := 0, mfcc_mean := 0,
        harmonic_ratio := 0, percussive_ratio := 0 }
    audio_data := { length_samples := 0, peak_amplitude := 0, peak_db := 0 } }

/-
Helper lemmas: evaluation of `rne` and `fmtFixed` at concrete rationals
(the kernel cannot reduce `Rat` arithmetic, so these go through `norm_num`),
and prefix reasoning for `pyStartsWith` on appended strings.
-/

theorem rne_of_lt (q : ℚ) (f : ℤ) (hf : ⌊q⌋ = f) (h : q - f < 1 / 2) : rne q = f := by
  simp only [rne, hf]
  rw [if_pos h]

theorem rne_of_gt (q : ℚ) (f : ℤ) (hf : ⌊q⌋ = f) (h : 1 / 2 < q - f) : rne q = f + 1 := by
  simp only [rne, hf]
  rw [if_neg (by linarith), if_pos h]

theorem rne_tie_even (q : ℚ) (f : ℤ) (hf : ⌊q⌋ = f) (h : q - f = 1 / 2) (he : 2 ∣ f) :
    rne q = f := by
  simp only [rne, hf]
  rw [if_neg (by rw [h]; exact lt_irrefl _), if_neg (by rw [h]; exact lt_irrefl _), if_pos he]

theorem rne_tie_odd (q : ℚ) (f : ℤ) (hf : ⌊q⌋ = f) (h : q - f = 1 / 2) (ho : ¬2 ∣ f) :
    rne q = f + 1 := by
  simp only [rne, hf]
  rw [if_neg (by rw [h]; exact lt_irrefl _), if_neg (by rw [h]; exact lt_irrefl _), if_neg ho]

theorem fmtFixed_eval_neg (n : ℕ) (q : ℚ) (m : ℕ) (hq : q < 0) (hm : rne (q * 10 ^ n) = -(m : ℤ)) :
    fmtFixed n q =
      if n = 0 then "-" ++ natToString m
      else "-" ++ natToString (m / 10 ^ n) ++ "." ++ padZeros n (natToString (m % 10 ^ n)) := by
  simp [fmtFixed, hq, hm]

theorem fmtFixed_eval_nonneg (n : ℕ) (q : ℚ) (m : ℕ) (hq : ¬q < 0) (hm : rne (q * 10 ^ n) = (m : ℤ)) :
    fmtFixed n q =
      if n = 0 then natToString m
      else natToString (m / 10 ^ n) ++ "." ++ padZeros n (natToString (m % 10 ^ n)) := by
  simp [fmtFixed, hq, hm]

theorem pyStartsWith_append_pos (a x p : String) (h : p.data <+: a.data) :
    pyStartsWith (a ++ x) p = true := by
  unfold pyStartsWith
  rw [String.data_append]
  exact decide_eq_true (h.trans (List.prefix_append _ _))

theorem pyStartsWith_append_neg (a x p : String) (h₁ : ¬a.data <+: p.data)
    (h₂ : ¬p.data <+: a.data) : pyStartsWith (a ++ x) p = false := by
  unfold pyStartsWith
  rw [String.data_append]
  apply decide_eq_false
  intro hpre
  rcases List.prefix_or_prefix_of_prefix hpre (List.prefix_append a.data x.data) with h | h
  · exact h₂ h
  · exact h₁ h

theorem floor_eval (q : ℚ) (f : ℤ) (h1 : (f : ℚ) ≤ q) (h2 : q < f + 1) : ⌊q⌋ = f :=
  Int.floor_eq_iff.mpr ⟨h1, by exact_mod_cast h2⟩

theorem loudness_fav (r l : ℚ) :
    pyStartsWith (loudnessSuggestion r l) "✅" =
      decide (¬(r < SuggestionEngine.thresholds.rms_too_quiet) ∧
        ¬(SuggestionEngine.thresholds.rms_too_loud < r)) := by
  unfold loudnessSuggestion
  by_cases h1 : r < SuggestionEngine.thresholds.rms_too_quiet
  · rw [if_pos h1, pyStartsWith_append_neg _ _ _ (by decide) (by decide)]
    simp [h1]
  · rw [if_neg h1]
    by_cases h2 : SuggestionEngine.thresholds.rms_too_loud < r
    · rw [if_pos h2, pyStartsWith_append_neg _ _ _ (by decide) (by decide)]
      simp [h1, h2]
    · rw [if_neg h2, pyStartsWith_append_pos _ _ _ (by decide)]
      simp [h1, h2]

theorem dynamicRange_fav (v : ℚ) :
    pyStartsWith (dynamicRangeSuggestion v) "✅" =
      decide (¬(v < SuggestionEngine.thresholds.dynamic_range_low) ∧
        ¬(SuggestionEngine.thresholds.dynamic_range_high < v)) := by
  unfold dynamicRangeSuggestion
  by_cases h1 : v < SuggestionEngine.thresholds.dynamic_range_low
  · rw [if_pos h1, pyStartsWith_append_neg _ _ _ (by decide) (by decide)]
    simp [h1]
  · rw [if_neg h1]
    by_cases h2 : SuggestionEngine.thresholds.dynamic_range_high < v
    · rw [if_pos h2, pyStartsWith_append_neg _ _ _ (by decide) (by decide)]
      simp [h1, h2]
    · rw [if_neg h2, pyStartsWith_append_pos _ _ _ (by decide)]
      simp [h1, h2]

theorem frequencyBalance_fav (v : ℚ) :
    pyStartsWith (frequencyBalanceSuggestion v) "✅" =
      decide (¬(v < SuggestionEngine.thresholds.spectral_centroid_low) ∧
        ¬(SuggestionEngine.thresholds.spectral_centroid_high < v)) := by
  unfold frequencyBalanceSuggestion
  by_cases h1 : v < SuggestionEngine.thresholds.spectral_centroid_low
  · rw [if_pos h1, pyStartsWith_append_neg _ _ _ (by decide) (by decide)]
    simp [h1]
  · rw [if_neg h1]
    by_cases h2 : SuggestionEngine.thresholds.spectral_centroid_high < v
    · rw [if_pos h2, pyStartsWith_append_neg _ _ _ (by decide) (by decide)]
      simp [h1, h2]
    · rw [if_neg h2, pyStartsWith_append_pos _ _ _ (by decide)]
      simp [h1, h2]

theorem highFrequency_fav (v : ℚ) :
    pyStartsWith (highFrequencySuggestion v) "✅" =
      decide (¬(v < SuggestionEngine.thresholds.spectral_rolloff_low) ∧
        ¬(SuggestionEngine.thresholds.spectral_rolloff_high < v)) := by
  unfold highFrequencySuggestion
  by_cases h1 : v < SuggestionEngine.thresholds.spectral_rolloff_low
  · rw [if_pos h1, pyStartsWith_append_neg _ _ _ (by decide) (by decide)]
    simp [h1]
  · rw [if_neg h1]
    by_cases h2 : SuggestionEngine.thresholds.spectral_rolloff_high < v
    · rw [if_pos h2, pyStartsWith_append_neg _ _ _ (by decide) (by decide)]
      simp [h1, h2]
    · rw [if_neg h2, pyStartsWith_append_pos _ _ _ (by decide)]
      simp [h1, h2]

theorem harmonicContent_fav (v : ℚ) :
    pyStartsWith (harmonicContentSuggestion v) "✅" =
      decide (¬(v < SuggestionEngine.thresholds.harmonic_ratio_low)) := by
  unfold harmonicContentSuggestion
  by_cases h1 : v < SuggestionEngine.thresholds.harmonic_ratio_low
  · rw [if_pos h1, pyStartsWith_append_neg _ _ _ (by decide) (by decide)]
    simp [h1]
  · rw [if_neg h1, pyStartsWith_append_pos _ _ _ (by decide)]
    simp [h1]

theorem tempo_fav (v : ℚ) :
    pyStartsWith (tempoSuggestion v) "✅" =
      decide (¬(v < 60) ∧ ¬(180 < v)) := by
  unfold tempoSuggestion
  by_cases h1 : v < 60
  · rw [if_pos h1, pyStartsWith_append_neg _ _ _ (by decide) (by decide)]
    simp [h1]
  · rw [if_neg h1]
    by_cases h2 : (180 : ℚ) < v
    · rw [if_pos h2, pyStartsWith_append_neg _ _ _ (by decide) (by decide)]
      simp [h1, h2]
    · rw [if_neg h2, pyStartsWith_append_pos _ _ _ (by decide)]
      simp [h1, h2]

theorem keyDetection_fav (k : String) :
    pyStartsWith (keyDetectionSuggestion k) "✅" = false := by
  unfold keyDetectionSuggestion
  exact pyStartsWith_append_neg _ _ _ (by decide) (by decide)

/-- The ✅-count the source computes over the seven emitted entries equals
the number of judged checks in the favorable band; the key entry never
carries the ✅ marker. -/
theorem suggestionCount_eq (d : DescriptorSet) :
    ((suggestionsOf d).filter (fun s => pyStartsWith s "✅")).length = favorableCount d := by
  rw [← List.countP_eq_length_filter]
  simp only [suggestionsOf, List.countP_cons, List.countP_nil, loudness_fav, dynamicRange_fav,
    frequencyBalance_fav, highFrequency_fav, harmonicContent_fav, tempo_fav, keyDetection_fav,
    favorableCount, decide_eq_true_eq, Bool.false_eq_true, if_false]
  split_ifs <;> simp_all

/-- The comparison `suggestion_count >= 7 * 0.7` for an integer count. -/
theorem banner_cond (n : ℕ) : (((7 : ℕ) : ℚ) * 0.7 ≤ (n : ℚ)) ↔ 49 ≤ 10 * n := by
  rw [show ((7 : ℕ) : ℚ) * 0.7 = 49 / 10 by norm_num,
    div_le_iff₀ (by norm_num : (0 : ℚ) < 10)]
  constructor
  · intro h
    have : ((49 : ℕ) : ℚ) ≤ ((10 * n : ℕ) : ℚ) := by push_cast; linarith
    exact_mod_cast this
  · intro h
    have : ((49 : ℕ) : ℚ) ≤ ((10 * n : ℕ) : ℚ) := by exact_mod_cast h
    push_cast at this
    linarith

/-- Unfolding of `generate` on a non-empty DescriptorSet: the selected
banner followed by the seven category entries in their fixed order. -/
theorem generate_some_decomp (d : DescriptorSet) (h : d.isEmpty = false) :
    SuggestionEngine.generate (some d) = bannerOf d :: suggestionsOf d := by
  unfold SuggestionEngine.generate bannerOf
  simp only [Option.getD_some, h, Bool.false_eq_true, if_false, suggestionCount_eq]
  by_cases hc : 49 ≤ 10 * favorableCount d
  · rw [if_pos ((banner_cond _).mpr hc), if_pos hc]
  · rw [if_neg (fun hq => hc ((banner_cond _).mp hq)), if_neg hc]

theorem bannerOf_quiet (d : DescriptorSet) :
    pyStartsWith (bannerOf d) "🔊 **Loudness**: Track is quiet" = false := by
  unfold bannerOf
  split <;> decide

theorem loudness_quiet (r l : ℚ) :
    pyStartsWith (loudnessSuggestion r l) "🔊 **Loudness**: Track is quiet" =
      decide (r < SuggestionEngine.thresholds.rms_too_quiet) := by
  unfold loudnessSuggestion
  by_cases h1 : r < SuggestionEngine.thresholds.rms_too_quiet
  · rw [if_pos h1, pyStartsWith_append_pos _ _ _ (by decide)]
    simp [h1]
  · rw [if_neg h1]
    split <;> rw [pyStartsWith_append_neg _ _ _ (by decide) (by decide)] <;> simp [h1]

theorem dynamicRange_quiet (v : ℚ) :
    pyStartsWith (dynamicRangeSuggestion v) "🔊 **Loudness**: Track is quiet" = false := by
  unfold dynamicRangeSuggestion
  split <;> try split
  all_goals exact pyStartsWith_append_neg _ _ _ (by decide) (by decide)

theorem frequencyBalance_quiet (v : ℚ) :
    pyStartsWith (frequencyBalanceSuggestion v) "🔊 **Loudness**: Track is quiet" = false := by
  unfold frequencyBalanceSuggestion
  split <;> try split
  all_goals exact pyStartsWith_append_neg _ _ _ (by decide) (by decide)

theorem highFrequency_quiet (v : ℚ) :
    pyStartsWith (highFrequencySuggestion v) "🔊 **Loudness**: Track is quiet" = false := by
  unfold highFrequencySuggestion
  split <;> try split
  all_goals exact pyStartsWith_append_neg _ _ _ (by decide) (by decide)

theorem harmonicContent_quiet (v : ℚ) :
    pyStartsWith (harmonicContentSuggestion v) "🔊 **Loudness**: Track is quiet" = false := by
  unfold harmonicContentSuggestion
  split
  all_goals exact pyStartsWith_append_neg _ _ _ (by decide) (by decide)

theorem tempo_quiet (v : ℚ) :
    pyStartsWith (tempoSuggestion v) "🔊 **Loudness**: Track is quiet" = false := by
  unfold tempoSuggestion
  split <;> try split
  all_goals exact pyStartsWith_append_neg _ _ _ (by decide) (by decide)

theorem keyDetection_quiet (k : String) :
    pyStartsWith (keyDetectionSuggestion k) "🔊 **Loudness**: Track is quiet" = false := by
  unfold keyDetectionSuggestion
  exact pyStartsWith_append_neg _ _ _ (by decide) (by decide)

theorem bannerOf_keymark (d : DescriptorSet) :
    pyStartsWith (bannerOf d) "🎹" = false := by
  unfold bannerOf
  split <;> decide

theorem loudness_keymark (r l : ℚ) :
    pyStartsWith (loudnessSuggestion r l) "🎹" = false := by
  unfold loudnessSuggestion
  split <;> try split
  all_goals exact pyStartsWith_append_neg _ _ _ (by decide) (by decide)

theorem dynamicRange_keymark (v : ℚ) :
    pyStartsWith (dynamicRangeSuggestion v) "🎹" = false := by
  unfold dynamicRangeSuggestion
  split <;> try split
  all_goals exact pyStartsWith_append_neg _ _ _ (by decide) (by decide)

theorem frequencyBalance_keymark (v : ℚ) :
    pyStartsWith (frequencyBalanceSuggestion v) "🎹" = false := by
  unfold frequencyBalanceSuggestion
  split <;> try split
  all_goals exact pyStartsWith_append_neg _ _ _ (by decide) (by decide)

theorem highFrequency_keymark (v : ℚ) :
    pyStartsWith (highFrequencySuggestion v) "🎹" = false := by
  unfold highFrequencySuggestion
  split <;> try split
  all_goals exact pyStartsWith_append_neg _ _ _ (by decide) (by decide)

theorem harmonicContent_keymark (v : ℚ) :
    pyStartsWith (harmonicContentSuggestion v) "🎹" = false := by
  unfold harmonicContentSuggestion
  split
  all_goals exact pyStartsWith_append_neg _ _ _ (by decide) (by decide)

theorem tempo_keymark (v : ℚ) :
    pyStartsWith (tempoSuggestion v) "🎹" = false := by
  unfold tempoSuggestion
  split <;> try split
  all_goals exact pyStartsWith_append_neg _ _ _ (by decide) (by decide)

theorem keyDetection_keymark (k : String) :
    pyStartsWith (keyDetectionSuggestion k) "🎹" = true := by
  unfold keyDetectionSuggestion
  exact pyStartsWith_append_pos _ _ _ (by decide)

theorem rne_intCast (z : ℤ) : rne ((z : ℚ)) = z :=
  rne_of_lt _ z (Int.floor_intCast z) (by norm_num)

theorem pyRound_zero (n : ℕ) : pyRound n (0 : ℚ) = 0 := by
  unfold pyRound
  rw [zero_mul, show ((0 : ℚ)) = ((0 : ℤ) : ℚ) by norm_num, rne_intCast]
  norm_num

theorem fmtFixed_one_neg1025 : fmtFixed 1 (-10.25 : ℚ) = "-10.2" := by
  rw [fmtFixed_eval_neg 1 (-10.25) 102 (by norm_num)
    (by rw [show (-10.25 : ℚ) * 10 ^ 1 = -102.5 by norm_num]
        have h := rne_tie_odd (-102.5 : ℚ) (-103)
          (floor_eval _ _ (by norm_num) (by norm_num))
          (by push_cast; norm_num) (by decide)
        rw [h]; norm_num)]
  decide

theorem fmtFixed_two_neg1025 : fmtFixed 2 (-10.25 : ℚ) = "-10.25" := by
  rw [fmtFixed_eval_neg 2 (-10.25) 1025 (by norm_num)
    (by rw [show (-10.25 : ℚ) * 10 ^ 2 = ((-1025 : ℤ) : ℚ) by norm_num, rne_intCast]
        norm_num)]
  decide

theorem fmtFixed_one_neg3325 : fmtFixed 1 (-33.25 : ℚ) = "-33.2" := by
  rw [fmtFixed_eval_neg 1 (-33.25) 332 (by norm_num)
    (by rw [show (-33.25 : ℚ) * 10 ^ 1 = -332.5 by norm_num]
        have h := rne_tie_odd (-332.5 : ℚ) (-333)
          (floor_eval _ _ (by norm_num) (by norm_num))
          (by push_cast; norm_num) (by decide)
        rw [h]; norm_num)]
  decide

theorem fmtFixed_two_neg3325 : fmtFixed 2 (-33.25 : ℚ) = "-33.25" := by
  rw [fmtFixed_eval_neg 2 (-33.25) 3325 (by norm_num)
    (by rw [show (-33.25 : ℚ) * 10 ^ 2 = ((-3325 : ℤ) : ℚ) by norm_num, rne_intCast]
        norm_num)]
  decide

/-- C1: for every non-empty DescriptorSet the engine counts how many judged
category checks landed in the favorable band and compares that count with
70% of the fixed divisor 7 (i.e. 4.9, so `49 ≤ 10 * count`): if the count
reaches it — in particular with exactly 5 favorable checks — the positive
overall banner is the first element of the returned list, otherwise — in
particular with exactly 4 — the improvement-needed banner is. -/
theorem c1_overall_banner (d : DescriptorSet) (h : d.isEmpty = false) :
    (49 ≤ 10 * favorableCount d →
      (SuggestionEngine.generate (some d)).head? = some overallPositive) ∧
    (10 * favorableCount d < 49 →
      (SuggestionEngine.generate (some d)).head? = some overallImprovement) := by
  rw [generate_some_decomp d h]
  constructor
  · intro hc
    simp [bannerOf, if_pos hc]
  · intro hc
    simp [bannerOf, if_neg (by omega : ¬49 ≤ 10 * favorableCount d)]

/-- C1 witness: five favorable checks select the positive banner, four the
improvement banner. -/
theorem c1_overall_banner_witness :
    (SuggestionEngine.generate (some dsFiveFavorable)).head? = some overallPositive ∧
    (SuggestionEngine.generate (some dsFourFavorable)).head? = some overallImprovement := by
  constructor
  · refine (c1_overall_banner dsFiveFavorable (by decide)).1 ?_
    have h5 : favorableCount dsFiveFavorable = 5 := by
      norm_num [favorableCount, dsFiveFavorable, SuggestionEngine.thresholds]
    omega
  · refine (c1_overall_banner dsFourFavorable (by decide)).2 ?_
    have h4 : favorableCount dsFourFavorable = 4 := by
      norm_num [favorableCount, dsFourFavorable, SuggestionEngine.thresholds]
    omega

/-- C2: the loudness check uses strict less-than against -20.0 dB: the
"too quiet" suggestion appears in the output exactly when `rms_db` is
strictly below the threshold; so -20.0 exactly does not produce it and
-20.01 does. -/
theorem c2_strict_quiet_threshold (d : DescriptorSet) (h : d.isEmpty = false) :
    ((SuggestionEngine.generate (some d)).any
        (fun s => pyStartsWith s "🔊 **Loudness**: Track is quiet") = true) ↔
      d.rms_db.getD 0 < SuggestionEngine.thresholds.rms_too_quiet := by
  rw [generate_some_decomp d h]
  simp only [suggestionsOf, List.any_cons, List.any_nil, bannerOf_quiet, loudness_quiet,
    dynamicRange_quiet, frequencyBalance_quiet, highFrequency_quiet, harmonicContent_quiet,
    tempo_quiet, keyDetection_quiet, Bool.or_false, Bool.false_or, decide_eq_true_eq]

/-- C2 witness: rms_db = -20.01 triggers the "too quiet" suggestion and
rms_db = -20.0 exactly does not. -/
theorem c2_strict_quiet_threshold_witness :
    ((SuggestionEngine.generate (some dsBelowThreshold)).any
        (fun s => pyStartsWith s "🔊 **Loudness**: Track is quiet") = true) ∧
    ¬((SuggestionEngine.generate (some dsAtThreshold)).any
        (fun s => pyStartsWith s "🔊 **Loudness**: Track is quiet") = true) := by
  constructor
  · exact (c2_strict_quiet_threshold dsBelowThreshold (by decide)).mpr
      (by norm_num [dsBelowThreshold, SuggestionEngine.thresholds])
  · intro hc
    have hlt := (c2_strict_quiet_threshold dsAtThreshold (by decide)).mp hc
    norm_num [dsAtThreshold, SuggestionEngine.thresholds] at hlt

/-- C3: generate is a total function (the embedding's type is `List String`
with no error outcome, matching the source which raises nowhere on
schema-typed input), and an absent (`none`) or empty DescriptorSet yields
exactly the one-element unable-to-extract list. -/
theorem c3_empty_handling :
    SuggestionEngine.generate none =
      ["Unable to extract features. Please check audio file."] ∧
    ∀ d : DescriptorSet, d.isEmpty = true →
      SuggestionEngine.generate (some d) =
        ["Unable to extract features. Please check audio file."] := by
  constructor
  · rfl
  · intro d h
    unfold SuggestionEngine.generate
    simp [h]

/-- C3 witness: the all-absent DescriptorSet is empty and yields exactly
the single informational entry. -/
theorem c3_empty_handling_witness :
    SuggestionEngine.generate (some {}) =
      ["Unable to extract features. Please check audio file."] :=
  c3_empty_handling.2 {} (by decide)

/-- C6: for every non-empty DescriptorSet the output is the banner followed
by the seven category entries in the fixed order Loudness, Dynamic Range,
Frequency Balance, High-Frequency Content, Harmonic Content, Tempo, Key
Detection; the key entry occurs exactly once, never carries the favorable
marker, and the ✅-count feeding the banner equals the favorable count of
the six judged checks alone (the key entry contributes nothing). -/
theorem c6_order_and_key (d : DescriptorSet) (h : d.isEmpty = false) :
    SuggestionEngine.generate (some d) = bannerOf d :: suggestionsOf d ∧
    (SuggestionEngine.generate (some d)).countP (fun s => pyStartsWith s "🎹") = 1 ∧
    pyStartsWith (keyDetectionSuggestion (d.estimated_key.getD "Unknown")) "✅" = false ∧
    ((suggestionsOf d).filter (fun s => pyStartsWith s "✅")).length = favorableCount d := by
  refine ⟨generate_some_decomp d h, ?_, keyDetection_fav _, suggestionCount_eq d⟩
  rw [generate_some_decomp d h]
  simp [suggestionsOf, List.countP_cons, bannerOf_keymark, loudness_keymark,
    dynamicRange_keymark, frequencyBalance_keymark, highFrequency_keymark,
    harmonicContent_keymark, tempo_keymark, keyDetection_keymark]

/-- C6 witness at a concrete non-empty DescriptorSet. -/
theorem c6_order_and_key_witness :
    SuggestionEngine.generate (some dsFiveFavorable) =
      bannerOf dsFiveFavorable :: suggestionsOf dsFiveFavorable ∧
    (SuggestionEngine.generate (some dsFiveFavorable)).countP
      (fun s => pyStartsWith s "🎹") = 1 ∧
    pyStartsWith (keyDetectionSuggestion (dsFiveFavorable.estimated_key.getD "Unknown"))
      "✅" = false ∧
    ((suggestionsOf dsFiveFavorable).filter (fun s => pyStartsWith s "✅")).length =
      favorableCount dsFiveFavorable :=
  c6_order_and_key dsFiveFavorable (by decide)

/-- C9: generate is deterministic — two calls on an identical input value
produce identical (hence byte-identical) output lists; the embedding is a
pure function of its argument, and the source reads no clock and draws no
randomness. -/
theorem c9_deterministic (f : Option DescriptorSet) (l₁ l₂ : List String)
    (h₁ : SuggestionEngine.generate f = l₁) (h₂ : SuggestionEngine.generate f = l₂) :
    l₁ = l₂ := h₁ ▸ h₂ ▸ rfl

/-- C9 witness at a concrete input. -/
theorem c9_deterministic_witness :
    SuggestionEngine.generate (some dsFiveFavorable) =
      SuggestionEngine.generate (some dsFiveFavorable) :=
  c9_deterministic (some dsFiveFavorable) _ _ rfl rfl

/-- C10: the output is independent of the `percussive_ratio` field — for
two non-empty DescriptorSets differing only there, the suggestion lists
are identical (the source reads the field but never uses it, and its
`percussive_ratio_high` threshold of 0.6 is referenced nowhere). -/
theorem c10_percussive_independent (d : DescriptorSet) (p : Option ℚ)
    (h : d.isEmpty = false)
    (h2 : ({ d with percussive_ratio := p } : DescriptorSet).isEmpty = false) :
    SuggestionEngine.generate (some d) =
      SuggestionEngine.generate (some { d with percussive_ratio := p }) := by
  rw [generate_some_decomp d h, generate_some_decomp _ h2]
  rfl

/-- C10 witness: changing percussive_ratio alone leaves the output
unchanged. -/
theorem c10_percussive_independent_witness :
    SuggestionEngine.generate (some dsFiveFavorable) =
      SuggestionEngine.generate
        (some { dsFiveFavorable with percussive_ratio := some 0.9 }) :=
  c10_percussive_independent dsFiveFavorable (some 0.9) (by decide) (by decide)

theorem pyRound_hasDecimals (n : ℕ) (q : ℚ) : hasDecimals n (pyRound n q) := by
  unfold hasDecimals pyRound
  rw [div_mul_cancel₀ _ (pow_ne_zero n (by norm_num : (10 : ℚ) ≠ 0))]
  exact Rat.den_intCast _

/-- C4 counterexample: on a failing decode the error surfaced by extract is
the raw library exception itself, not a typed DecodeError wrapper — no
DecodeError exists in the source and extract installs no handler. -/
theorem c4_counterexample :
    FeatureExtractor.extract (.error (.libError "unreadable file")) =
      .error (.libError "unreadable file") ∧
    isDecodeErrorResult
      (FeatureExtractor.extract (.error (.libError "unreadable file"))) = false :=
  ⟨rfl, rfl⟩

/-- C4 (amended): every failure of the decode/analysis pipeline propagates
out of extract unchanged — the original exception is surfaced as-is, with
no DecodeError wrapping — and no (partial or otherwise) AnalysisResult is
returned on failure. -/
theorem c4_error_propagation (e : PyExn) :
    FeatureExtractor.extract (.error e) = .error e ∧
    ∀ r : AnalysisResult, FeatureExtractor.extract (.error e) ≠ .ok r := by
  refine ⟨rfl, ?_⟩
  intro r hc
  simp [FeatureExtractor.extract] at hc

/-- C7: every numeric field of the DescriptorSet produced by extract is
rounded to its fixed per-field precision — 2 decimals for tempo_bpm,
rms_db, lufs_approx, spectral_centroid_hz, spectral_rolloff_percent,
spectral_bandwidth_hz, dynamic_range_db, spectral_contrast and mfcc_mean;
4 for zero_crossing_rate; 3 for harmonic_ratio and percussive_ratio. -/
theorem c7_per_field_rounding (p : RawPipeline) (res : AnalysisResult)
    (h : FeatureExtractor.extract (.ok p) = .ok res) :
    hasDecimals 2 res.extracted_features.tempo_bpm ∧
    hasDecimals 2 res.extracted_features.rms_db ∧
    hasDecimals 2 res.extracted_features.lufs_approx ∧
    hasDecimals 2 res.extracted_features.spectral_centroid_hz ∧
    hasDecimals 2 res.extracted_features.spectral_rolloff_percent ∧
    hasDecimals 4 res.extracted_features.zero_crossing_rate ∧
    hasDecimals 2 res.extracted_features.spectral_bandwidth_hz ∧
    hasDecimals 2 res.extracted_features.dynamic_range_db ∧
    hasDecimals 2 res.extracted_features.spectral_contrast ∧
    hasDecimals 2 res.extracted_features.mfcc_mean ∧
    hasDecimals 3 res.extracted_features.harmonic_ratio ∧
    hasDecimals 3 res.extracted_features.percussive_ratio := by
  simp only [FeatureExtractor.extract, Except.ok.injEq] at h
  subst h
  exact ⟨pyRound_hasDecimals 2 _, pyRound_hasDecimals 2 _, pyRound_hasDecimals 2 _,
    pyRound_hasDecimals 2 _, pyRound_hasDecimals 2 _, pyRound_hasDecimals 4 _,
    pyRound_hasDecimals 2 _, pyRound_hasDecimals 2 _, pyRound_hasDecimals 2 _,
    pyRound_hasDecimals 2 _, pyRound_hasDecimals 3 _, pyRound_hasDecimals 3 _⟩

/-- C7 witness: the rounding property at a concrete pipeline outcome. -/
theorem c7_per_field_rounding_witness :
    hasDecimals 2 resZero.extracted_features.tempo_bpm ∧
    hasDecimals 2 resZero.extracted_features.rms_db ∧
    hasDecimals 2 resZero.extracted_features.lufs_approx ∧
    hasDecimals 2 resZero.extracted_features.spectral_centroid_hz ∧
    hasDecimals 2 resZero.extracted_features.spectral_rolloff_percent ∧
    hasDecimals 4 resZero.extracted_features.zero_crossing_rate ∧
    hasDecimals 2 resZero.extracted_features.spectral_bandwidth_hz ∧
    hasDecimals 2 resZero.extracted_features.dynamic_range_db ∧
    hasDecimals 2 resZero.extracted_features.spectral_contrast ∧
    hasDecimals 2 resZero.extracted_features.mfcc_mean ∧
    hasDecimals 3 resZero.extracted_features.harmonic_ratio ∧
    hasDecimals 3 resZero.extracted_features.percussive_ratio := by
  refine c7_per_field_rounding rawZero resZero ?_
  have e23 : pyRound 2 ((-23 : ℚ)) = -23 := by
    rw [show ((-23 : ℚ)) = ((-23 : ℤ) : ℚ) by norm_num]
    unfold pyRound
    rw [show ((-23 : ℤ) : ℚ) * 10 ^ 2 = ((-2300 : ℤ) : ℚ) by norm_num, rne_intCast]
    norm_num
  simp only [FeatureExtractor.extract, rawZero, resZero, keys, Except.ok.injEq]
  norm_num [pyRound_zero, e23]

/-- C5 counterexample: for the DescriptorSet with `rms_db = -10.25` and
`lufs_approx = -33.25` (both received at 2-decimal precision) the emitted
loudness entry embeds `-10.2` and `-33.2` — the values re-rounded by the
source's `:.1f` formatting — and is not the entry embedding the values at
their received precision that the claim demands. -/
theorem c5_counterexample :
    (SuggestionEngine.generate (some dsReround))[1]? =
      some "✅ **Loudness**: Good level (RMS: -10.2 dB, LUFS approx: -33.2). Track has appropriate loudness for modern production." ∧
    (SuggestionEngine.generate (some dsReround))[1]? ≠
      some (specLoudnessEntryAsReceived dsReround) := by
  have hrms : dsReround.rms_db.getD 0 = -10.25 := rfl
  have hlufs : dsReround.lufs_approx.getD 0 = -33.25 := rfl
  have hd := generate_some_decomp dsReround (by decide)
  have hl : loudnessSuggestion (-10.25) (-33.25) =
      "✅ **Loudness**: Good level (RMS: -10.2 dB, LUFS approx: -33.2). Track has appropriate loudness for modern production." := by
    unfold loudnessSuggestion
    rw [if_neg (by norm_num [SuggestionEngine.thresholds]),
      if_neg (by norm_num [SuggestionEngine.thresholds]),
      fmtFixed_one_neg1025, fmtFixed_one_neg3325]
    decide
  have hs : specLoudnessEntryAsReceived dsReround =
      "✅ **Loudness**: Good level (RMS: -10.25 dB, LUFS approx: -33.25). Track has appropriate loudness for modern production." := by
    unfold specLoudnessEntryAsReceived
    rw [hrms, hlufs, fmtFixed_two_neg1025, fmtFixed_two_neg3325]
    decide
  rw [hd]
  simp only [suggestionsOf, List.getElem?_cons_succ, List.getElem?_cons_zero,
    hrms, hlufs, hl, hs]
  exact ⟨trivial, by decide⟩

/-- C5 (amended): no suggestion message embeds a received value verbatim;
for every non-empty DescriptorSet the entire output after the banner is the
seven templates below, in which every embedded number is the field's value
re-rounded by Python's `:.1f` fixed-point formatting to 1 decimal place —
0 decimals for the spectral centroid — whatever the tier, and the key name
is embedded verbatim; `zero_crossing_rate` (received at 4 decimals) appears
in no message at all. -/
theorem c5_amended_rerounding (d : DescriptorSet) (h : d.isEmpty = false) :
    SuggestionEngine.generate (some d) =
      bannerOf d ::
      [(if d.rms_db.getD 0 < SuggestionEngine.thresholds.rms_too_quiet then
          "🔊 **Loudness**: Track is quiet (RMS: " ++ (fmtFixed 1 (d.rms_db.getD 0) ++
            " dB). Consider normalizing or increasing gain to improve perceived loudness.")
        else if SuggestionEngine.thresholds.rms_too_loud < d.rms_db.getD 0 then
          "🔊 **Loudness**: Track may be too loud (RMS: " ++ (fmtFixed 1 (d.rms_db.getD 0) ++
            " dB). Watch for clipping and consider reducing gain slightly.")
        else
          "✅ **Loudness**: Good level (RMS: " ++ (fmtFixed 1 (d.rms_db.getD 0) ++
            (" dB, LUFS approx: " ++ (fmtFixed 1 (d.lufs_approx.getD 0) ++
            "). Track has appropriate loudness for modern production.")))),
       (if d.dynamic_range_db.getD 0 < SuggestionEngine.thresholds.dynamic_range_low then
          "🎚️ **Dynamic Range**: Very compressed (Range: " ++ (fmtFixed 1 (d.dynamic_range_db.getD 0) ++
            " dB). Consider easing compression to preserve more natural dynamics and musicality.")
        else if SuggestionEngine.thresholds.dynamic_range_high < d.dynamic_range_db.getD 0 then
          "🎚️ **Dynamic Range**: Wide dynamics (Range: " ++ (fmtFixed 1 (d.dynamic_range_db.getD 0) ++
            " dB). Good for dynamic music, but ensure consistency for streaming platforms.")
        else
          "✅ **Dynamic Range**: Balanced (Range: " ++ (fmtFixed 1 (d.dynamic_range_db.getD 0) ++
            " dB). Good balance between dynamics and consistency.")),
       (if d.spectral_centroid_hz.getD 0 < SuggestionEngine.thresholds.spectral_centroid_low then
          "🎵 **Frequency Balance**: Low-end heavy (Centroid: " ++ (fmtFixed 0 (d.spectral_centroid_hz.getD 0) ++
            " Hz). Mix may lack clarity in the mid/high frequencies. Consider boosting presence or reducing low-end.")
        else if SuggestionEngine.thresholds.spectral_centroid_high < d.spectral_centroid_hz.getD 0 then
          "🎵 **Frequency Balance**: Bright mix (Centroid: " ++ (fmtFixed 0 (d.spectral_centroid_hz.getD 0) ++
            " Hz). High frequencies are prominent. Watch for harshness or listener fatigue.")
        else
          "✅ **Frequency Balance**: Well-balanced (Centroid: " ++ (fmtFixed 0 (d.spectral_centroid_hz.getD 0) ++
            " Hz). Good distribution across frequency spectrum.")),
       (if d.spectral_rolloff_percent.getD 0 < SuggestionEngine.thresholds.spectral_rolloff_low then
          "📊 **High-Frequency Content**: Limited high-end (Rolloff: " ++ (fmtFixed 1 (d.spectral_rolloff_percent.getD 0) ++
            "%). Mix may sound dull. Consider adding air or reducing low-pass filtering.")
        else if SuggestionEngine.thresholds.spectral_rolloff_high < d.spectral_rolloff_percent.getD 0 then
          "📊 **High-Frequency Content**: Extended high-end (Rolloff: " ++ (fmtFixed 1 (d.spectral_rolloff_percent.getD 0) ++
            "%). Very bright mix. Ensure high frequencies are musical, not harsh.")
        else
          "✅ **High-Frequency Content**: Appropriate (Rolloff: " ++ (fmtFixed 1 (d.spectral_rolloff_percent.getD 0) ++
            "%). Good high-frequency extension.")),
       (if d.harmonic_ratio.getD 0 < SuggestionEngine.thresholds.harmonic_ratio_low then
          "🎸 **Harmonic Content**: Low harmonic content (" ++ (fmtFixed 1 ((d.harmonic_ratio.getD 0) * 100) ++
            "%). Track is more percussive/noisy. If intended, great! If not, check for distortion or noise issues.")
        else
          "✅ **Harmonic Content**: Good harmonic presence (" ++ (fmtFixed 1 ((d.harmonic_ratio.getD 0) * 100) ++
            "%). Musical elements are well-represented.")),
       (if d.tempo_bpm.getD 0 < 60 then
          "⏱️ **Tempo**: Slow tempo (" ++ (fmtFixed 1 (d.tempo_bpm.getD 0) ++
            " BPM). Great for ambient or ballads. Ensure timing feels intentional.")
        else if 180 < d.tempo_bpm.getD 0 then
          "⏱️ **Tempo**: Fast tempo (" ++ (fmtFixed 1 (d.tempo_bpm.getD 0) ++
            " BPM). High energy track! Ensure clarity isn't lost at this pace.")
        else
          "✅ **Tempo**: " ++ (fmtFixed 1 (d.tempo_bpm.getD 0) ++
            " BPM detected. Tempo is well-suited for most genres.")),
       "🎹 **Key Detection**: Estimated key is " ++ (d.estimated_key.getD "Unknown" ++
         ". Use this as a reference for harmonic mixing or adding complementary elements.")] := by
  rw [generate_some_decomp d h]
  rfl

/-- C5 witness: the amended all-entries rendering at the concrete
re-rounding input. -/
theorem c5_amended_rerounding_witness :
    SuggestionEngine.generate (some dsReround) =
      bannerOf dsReround ::
      [(if dsReround.rms_db.getD 0 < SuggestionEngine.thresholds.rms_too_quiet then
          "🔊 **Loudness**: Track is quiet (RMS: " ++ (fmtFixed 1 (dsReround.rms_db.getD 0) ++
            " dB). Consider normalizing or increasing gain to improve perceived loudness.")
        else if SuggestionEngine.thresholds.rms_too_loud < dsReround.rms_db.getD 0 then
          "🔊 **Loudness**: Track may be too loud (RMS: " ++ (fmtFixed 1 (dsReround.rms_db.getD 0) ++
            " dB). Watch for clipping and consider reducing gain slightly.")
        else
          "✅ **Loudness**: Good level (RMS: " ++ (fmtFixed 1 (dsReround.rms_db.getD 0) ++
            (" dB, LUFS approx: " ++ (fmtFixed 1 (dsReround.lufs_approx.getD 0) ++
            "). Track has appropriate loudness for modern production.")))),
       (if dsReround.dynamic_range_db.getD 0 < SuggestionEngine.thresholds.dynamic_range_low then
          "🎚️ **Dynamic Range**: Very compressed (Range: " ++ (fmtFixed 1 (dsReround.dynamic_range_db.getD 0) ++
            " dB). Consider easing compression to preserve more natural dynamics and musicality.")
        else if SuggestionEngine.thresholds.dynamic_range_high < dsReround.dynamic_range_db.getD 0 then
          "🎚️ **Dynamic Range**: Wide dynamics (Range: " ++ (fmtFixed 1 (dsReround.dynamic_range_db.getD 0) ++
            " dB). Good for dynamic music, but ensure consistency for streaming platforms.")
        else
          "✅ **Dynamic Range**: Balanced (Range: " ++ (fmtFixed 1 (dsReround.dynamic_range_db.getD 0) ++
            " dB). Good balance between dynamics and consistency.")),
       (if dsReround.spectral_centroid_hz.getD 0 < SuggestionEngine.thresholds.spectral_centroid_low then
          "🎵 **Frequency Balance**: Low-end heavy (Centroid: " ++ (fmtFixed 0 (dsReround.spectral_centroid_hz.getD 0) ++
            " Hz). Mix may lack clarity in the mid/high frequencies. Consider boosting presence or reducing low-end.")
        else if SuggestionEngine.thresholds.spectral_centroid_high < dsReround.spectral_centroid_hz.getD 0 then
          "🎵 **Frequency Balance**: Bright mix (Centroid: " ++ (fmtFixed 0 (dsReround.spectral_centroid_hz.getD 0) ++
            " Hz). High frequencies are prominent. Watch for harshness or listener fatigue.")
        else
          "✅ **Frequency Balance**: Well-balanced (Centroid: " ++ (fmtFixed 0 (dsReround.spectral_centroid_hz.getD 0) ++
            " Hz). Good distribution across frequency spectrum.")),
       (if dsReround.spectral_rolloff_percent.getD 0 < SuggestionEngine.thresholds.spectral_rolloff_low then
          "📊 **High-Frequency Content**: Limited high-end (Rolloff: " ++ (fmtFixed 1 (dsReround.spectral_rolloff_percent.getD 0) ++
            "%). Mix may sound dull. Consider adding air or reducing low-pass filtering.")
        else if SuggestionEngine.thresholds.spectral_rolloff_high < dsReround.spectral_rolloff_percent.getD 0 then
          "📊 **High-Frequency Content**: Extended high-end (Rolloff: " ++ (fmtFixed 1 (dsReround.spectral_rolloff_percent.getD 0) ++
            "%). Very bright mix. Ensure high frequencies are musical, not harsh.")
        else
          "✅ **High-Frequency Content**: Appropriate (Rolloff: " ++ (fmtFixed 1 (dsReround.spectral_rolloff_percent.getD 0) ++
            "%). Good high-frequency extension.")),
       (if dsReround.harmonic_ratio.getD 0 < SuggestionEngine.thresholds.harmonic_ratio_low then
          "🎸 **Harmonic Content**: Low harmonic content (" ++ (fmtFixed 1 ((dsReround.harmonic_ratio.getD 0) * 100) ++
            "%). Track is more percussive/noisy. If intended, great! If not, check for distortion or noise issues.")
        else
          "✅ **Harmonic Content**: Good harmonic presence (" ++ (fmtFixed 1 ((dsReround.harmonic_ratio.getD 0) * 100) ++
            "%). Musical elements are well-represented.")),
       (if dsReround.tempo_bpm.getD 0 < 60 then
          "⏱️ **Tempo**: Slow tempo (" ++ (fmtFixed 1 (dsReround.tempo_bpm.getD 0) ++
            " BPM). Great for ambient or ballads. Ensure timing feels intentional.")
        else if 180 < dsReround.tempo_bpm.getD 0 then
          "⏱️ **Tempo**: Fast tempo (" ++ (fmtFixed 1 (dsReround.tempo_bpm.getD 0) ++
            " BPM). High energy track! Ensure clarity isn't lost at this pace.")
        else
          "✅ **Tempo**: " ++ (fmtFixed 1 (dsReround.tempo_bpm.getD 0) ++
            " BPM detected. Tempo is well-suited for most genres.")),
       "🎹 **Key Detection**: Estimated key is " ++ (dsReround.estimated_key.getD "Unknown" ++
         ". Use this as a reference for harmonic mixing or adding complementary elements.")] :=
  c5_amended_rerounding dsReround (by decide)

/-- C8 counterexample: a non-empty DescriptorSet lacking `rms_db` still
gets a judged Loudness suggestion — the engine silently substitutes the
default 0 via `extracted.get('rms_db', 0)` (0 > -6 selects the too-loud
warning), contradicting the claim that it never does so. -/
theorem c8_counterexample :
    dsNoRms.rms_db = none ∧ dsNoRms.isEmpty = false ∧
    (SuggestionEngine.generate (some dsNoRms)).any isLoudnessJudged = true := by
  refine ⟨rfl, by decide, ?_⟩
  rw [generate_some_decomp dsNoRms (by decide)]
  apply List.any_eq_true.mpr
  refine ⟨loudnessSuggestion (dsNoRms.rms_db.getD 0) (dsNoRms.lufs_approx.getD 0), ?_, ?_⟩
  · simp [suggestionsOf]
  · show isLoudnessJudged (loudnessSuggestion 0 0) = true
    unfold loudnessSuggestion isLoudnessJudged
    rw [if_neg (by norm_num [SuggestionEngine.thresholds]),
      if_pos (by norm_num [SuggestionEngine.thresholds]),
      pyStartsWith_append_pos _ _ _ (by decide)]
    rfl

/-- C8 (amended): for a non-empty DescriptorSet lacking `rms_db` or
`tempo_bpm` (the fields the claim names) the engine silently substitutes
the default 0 for the missing field — behaving exactly as if the field
were present with value 0 — and still emits a judged suggestion for that
category; it neither fails the call nor skips the category. -/
theorem c8_amended_default_substitution (d : DescriptorSet) (h : d.isEmpty = false) :
    (d.rms_db = none →
      SuggestionEngine.generate (some d) =
        SuggestionEngine.generate (some { d with rms_db := some 0 }) ∧
      (SuggestionEngine.generate (some d)).any isLoudnessJudged = true) ∧
    (d.tempo_bpm = none →
      SuggestionEngine.generate (some d) =
        SuggestionEngine.generate (some { d with tempo_bpm := some 0 }) ∧
      (SuggestionEngine.generate (some d)).any isTempoJudged = true) := by
  constructor
  · intro hr
    constructor
    · rw [generate_some_decomp d h,
        generate_some_decomp _ (by simp [DescriptorSet.isEmpty])]
      simp only [bannerOf, favorableCount, suggestionsOf, hr, Option.getD_none,
        Option.getD_some]
    · rw [generate_some_decomp d h]
      apply List.any_eq_true.mpr
      refine ⟨loudnessSuggestion (d.rms_db.getD 0) (d.lufs_approx.getD 0), ?_, ?_⟩
      · simp [suggestionsOf]
      · rw [hr]
        show isLoudnessJudged (loudnessSuggestion 0 _) = true
        unfold loudnessSuggestion isLoudnessJudged
        rw [if_neg (by norm_num [SuggestionEngine.thresholds]),
          if_pos (by norm_num [SuggestionEngine.thresholds]),
          pyStartsWith_append_pos _ _ _ (by decide)]
        rfl
  · intro ht
    constructor
    · rw [generate_some_decomp d h,
        generate_some_decomp _ (by simp [DescriptorSet.isEmpty])]
      simp only [bannerOf, favorableCount, suggestionsOf, ht, Option.getD_none,
        Option.getD_some]
    · rw [generate_some_decomp d h]
      apply List.any_eq_true.mpr
      refine ⟨tempoSuggestion (d.tempo_bpm.getD 0), ?_, ?_⟩
      · simp [suggestionsOf]
      · rw [ht]
        show isTempoJudged (tempoSuggestion 0) = true
        unfold tempoSuggestion isTempoJudged
        rw [if_pos (by norm_num : (0 : ℚ) < 60),
          pyStartsWith_append_pos _ _ _ (by decide)]
        rfl

/-- C8 witness: the amended behaviour at a DescriptorSet missing `rms_db`
and at one missing `tempo_bpm`. -/
theorem c8_amended_default_substitution_witness :
    (SuggestionEngine.generate (some dsNoRms) =
      SuggestionEngine.generate (some { dsNoRms with rms_db := some 0 }) ∧
     (SuggestionEngine.generate (some dsNoRms)).any isLoudnessJudged = true) ∧
    (SuggestionEngine.generate (some dsNoTempo) =
      SuggestionEngine.generate (some { dsNoTempo with tempo_bpm := some 0 }) ∧
     (SuggestionEngine.generate (some dsNoTempo)).any isTempoJudged = true) :=
  ⟨(c8_amended_default_substitution dsNoRms (by decide)).1 rfl,
   (c8_amended_default_substitution dsNoTempo (by decide)).2 rfl⟩
